import Mathlib

/-
Verification development for the retrieval ranking and grounding pipeline of a
personal-data RAG system.  The Lean definitions below are shallow embeddings of
the Python sources:

  * src/rag/citations.py          (citations, grounding validation)
  * src/rag/priority.py           (priority model, weighted ranking)
  * src/rag/query_preprocessor.py (filter extraction from natural language)
  * src/storage/document_registry.py (light/heavy metadata split and merge)
  * src/rag/forget.py             (cross-store deletion orchestration)
  * src/rag/query_engine.py       (chat-history persistence of query exchanges)

Python strings are modelled as `List Char`, floats as `ℚ` (all arithmetic in
these modules is exact decimal arithmetic on small values), dictionaries as
association lists with Python-dict update semantics, and fallible operations
(exceptions) as `Option`/`Except` results.  Collaborator objects that live
behind an interface (vector store, chat history, registry, audit log) are
modelled as records of functions, with effectful calls reflected in explicit
call traces.
-/

namespace DigitalTwin

/-- The apostrophe character, used inside phrase literals. -/
def apostrophe : Char := Char.ofNat 39

/-- Python `needle in haystack` substring test on character lists. -/
def strContains (haystack needle : List Char) : Bool :=
  (List.range (haystack.length + 1)).any fun i => needle.isPrefixOf (haystack.drop i)

/-- Python `str.lower` restricted to the alphabets that actually occur in the
repository's patterns: ASCII letters and the Polish diacritic letters. -/
def pyCharLower (c : Char) : Char :=
  if c = 'Ą' then 'ą'
  else if c = 'Ć' then 'ć'
  else if c = 'Ę' then 'ę'
  else if c = 'Ł' then 'ł'
  else if c = 'Ń' then 'ń'
  else if c = 'Ó' then 'ó'
  else if c = 'Ś' then 'ś'
  else if c = 'Ź' then 'ź'
  else if c = 'Ż' then 'ż'
  else c.toLower

/-- Python `s.lower()` on a character-list string. -/
def pyLower (s : List Char) : List Char := s.map pyCharLower

/-! ## src/rag/citations.py -/

/-- A single source citation (class `Citation`).  The `metadata` dictionary is
modelled as an association list of string pairs. -/
structure Citation where
  document_id : List Char
  source_type : List Char
  filename : List Char
  file_path : List Char
  fragment : List Char
  date : List Char
  score : ℚ
  metadata : List (List Char × List Char) := []
deriving DecidableEq

/-- The phrase list `no_info_phrases` from `validate_grounding`. -/
def no_info_phrases : List (List Char) :=
  [ "could not find".data
  , "no information".data
  , "not found in".data
  , ['d', 'o', 'n'] ++ [apostrophe] ++ "t have information".data
  , "no relevant".data ]

/-- `validate_grounding(answer, citations)` from src/rag/citations.py. -/
def validate_grounding (answer : List Char) (citations : List Citation) : Bool :=
  let answer_lower := pyLower answer
  if no_info_phrases.any (fun p => strContains answer_lower p) then
    true
  else
    let has_citations :=
      strContains answer_lower "[source:".data || strContains answer_lower "[source ".data
    if !citations.isEmpty && has_citations then
      true
    else if citations.isEmpty && answer.length < 100 then
      true
    else
      has_citations || citations.isEmpty

/-- The grounding condition exactly as the specification words it (claim C1):
a refusal phrase, or an inline marker together with a non-empty citation list,
or an empty citation list with a short answer.  This definition follows the
spec, not the code; it exists to be compared against `validate_grounding`. -/
def spec_grounding_condition (answer : List Char) (citations : List Citation) : Bool :=
  let answer_lower := pyLower answer
  let refusal := no_info_phrases.any (fun p => strContains answer_lower p)
  let marker :=
    strContains answer_lower "[source:".data || strContains answer_lower "[source ".data
  refusal || (marker && !citations.isEmpty) || (citations.isEmpty && answer.length < 100)

/-! ## src/rag/priority.py -/

/-- Python dictionary lookup `d.get(k)` on an association list. -/
def lookupDict {α : Type} (d : List (List Char × α)) (k : List Char) : Option α :=
  (d.find? (fun kv => kv.1 == k)).map (·.2)

namespace DocumentType

def PROFILE : ℤ := 120
def DECISION : ℤ := 100
def NOTE : ℤ := 70
def EMAIL : ℤ := 50
def CONTACT : ℤ := 40
def CONVERSATION : ℤ := 30
def INTERESTS : ℤ := 25
def LOCATION : ℤ := 20
def SEARCH_HISTORY : ℤ := 10

end DocumentType

namespace ApprovalStatus

def PINNED : ℤ := 50
def APPROVED : ℤ := 30
def AUTOMATIC : ℤ := 0

end ApprovalStatus

/-- `CATEGORY_WEIGHTS` mapping from source_type/category to `DocumentType`. -/
def CATEGORY_WEIGHTS : List (List Char × ℤ) :=
  [ ("profile".data, DocumentType.PROFILE)
  , ("decision".data, DocumentType.DECISION)
  , ("note".data, DocumentType.NOTE)
  , ("text".data, DocumentType.NOTE)
  , ("email".data, DocumentType.EMAIL)
  , ("contact".data, DocumentType.CONTACT)
  , ("contacts".data, DocumentType.CONTACT)
  , ("whatsapp".data, DocumentType.CONVERSATION)
  , ("messenger".data, DocumentType.CONVERSATION)
  , ("conversation".data, DocumentType.CONVERSATION)
  , ("interests".data, DocumentType.INTERESTS)
  , ("location".data, DocumentType.LOCATION)
  , ("search_history".data, DocumentType.SEARCH_HISTORY) ]

/-- Dataclass `DocumentPriority`. -/
structure DocumentPriority where
  type_weight : ℤ
  approval_weight : ℤ
  recency_weight : ℚ
  type_contribution : ℚ
  approval_contribution : ℚ
  recency_contribution : ℚ
  priority_score : ℚ
deriving DecidableEq

/-- A document date argument, at day granularity (the code only ever uses the
`.days` component of a datetime difference).  `valid d` is a date or ISO string
that parses to a datetime `d` days after the epoch; `malformed` is a string
rejected by `datetime.fromisoformat` (the code then falls back to the current
instant). -/
inductive PyDate where
  | valid (day : ℤ)
  | malformed
deriving DecidableEq

/-- Python `x or y` for optional strings: `None` and the empty string are falsy. -/
def pyOrStr (x : Option (List Char)) (y : List Char) : List Char :=
  match x with
  | none => y
  | some s => if s.isEmpty then y else s

def settings_priority_recency_max_days : ℤ := 365
def settings_priority_similarity_weight : ℚ := 0.7
def settings_priority_document_weight : ℚ := 0.3

/-- `calculate_priority` from src/rag/priority.py.  `now` is the day number of
`datetime.now()`; a `date` of `none` covers both a `None` argument and an empty
(falsy) date string. -/
def calculate_priority (source_type : Option (List Char) := none)
    (document_category : Option (List Char) := none)
    (date : Option PyDate := none)
    (is_pinned : Bool := false) (is_approved : Bool := false)
    (max_age_days : Option ℤ := none) (now : ℤ := 0) : DocumentPriority :=
  -- max_age_days = max_age_days or settings.priority_recency_max_days
  let max_age_days : ℤ :=
    match max_age_days with
    | none => settings_priority_recency_max_days
    | some m => if m = 0 then settings_priority_recency_max_days else m
  -- category = document_category or source_type or "note"
  let category := pyOrStr document_category (pyOrStr source_type "note".data)
  let type_weight : ℤ := (lookupDict CATEGORY_WEIGHTS category).getD DocumentType.NOTE
  let approval_weight : ℤ :=
    if is_pinned then ApprovalStatus.PINNED
    else if is_approved then ApprovalStatus.APPROVED
    else ApprovalStatus.AUTOMATIC
  let recency_weight : ℚ :=
    match date with
    | some d =>
      let parsed_date : ℤ := match d with | .valid day => day | .malformed => now
      let age_days : ℤ := now - parsed_date
      max 0 (1 - (age_days : ℚ) / (max_age_days : ℚ))
    | none => 0.5
  let max_type : ℚ := (DocumentType.DECISION : ℚ)
  let type_contribution : ℚ := (type_weight : ℚ) / max_type
  let max_approval : ℚ := (ApprovalStatus.PINNED : ℚ)
  let approval_contribution : ℚ :=
    if max_approval > 0 then (approval_weight : ℚ) / max_approval else 0
  let recency_contribution := recency_weight
  let priority_score : ℚ :=
    0.4 * type_contribution + 0.3 * approval_contribution + 0.3 * recency_contribution
  { type_weight := type_weight
    approval_weight := approval_weight
    recency_weight := recency_weight
    type_contribution := type_contribution
    approval_contribution := approval_contribution
    recency_contribution := recency_contribution
    priority_score := priority_score }

/-- Python `x or y` on optional floats: `None` and `0.0` are falsy. -/
def pyOrQ (x : Option ℚ) (y : ℚ) : ℚ :=
  match x with
  | none => y
  | some v => if v = 0 then y else v

/-- `calculate_weighted_score` from src/rag/priority.py.  The Python division
raises `ZeroDivisionError` when the weights sum to zero; that failure is the
`none` result. -/
def calculate_weighted_score (similarity_score : ℚ) (priority : DocumentPriority)
    (similarity_weight : Option ℚ := none) (priority_weight : Option ℚ := none) :
    Option ℚ :=
  let similarity_weight := pyOrQ similarity_weight settings_priority_similarity_weight
  let priority_weight := pyOrQ priority_weight settings_priority_document_weight
  let total := similarity_weight + priority_weight
  if total ≠ 1 then
    if total = 0 then
      none
    else
      let similarity_weight := similarity_weight / total
      let priority_weight := priority_weight / total
      some (similarity_weight * similarity_score + priority_weight * priority.priority_score)
  else
    some (similarity_weight * similarity_score + priority_weight * priority.priority_score)

/-- The metadata fields read by `extract_priority_from_metadata`, as a record.
An absent or falsy (empty-string) date field is `none`. -/
structure PriorityMetadata where
  source_type : Option (List Char) := none
  document_category : Option (List Char) := none
  date : Option PyDate := none
  indexed_at : Option PyDate := none
  is_pinned : Bool := false
  is_approved : Bool := false
deriving DecidableEq

/-- Python `metadata.get("date") or metadata.get("indexed_at")`. -/
def pyOrDate (x y : Option PyDate) : Option PyDate :=
  match x with
  | none => y
  | some d => some d

/-- `extract_priority_from_metadata` from src/rag/priority.py. -/
def extract_priority_from_metadata (metadata : PriorityMetadata) (now : ℤ) :
    DocumentPriority :=
  calculate_priority metadata.source_type metadata.document_category
    (pyOrDate metadata.date metadata.indexed_at)
    metadata.is_pinned metadata.is_approved none now

/-- Dataclass `RankedDocument`. -/
structure RankedDocument where
  content : List Char
  metadata : PriorityMetadata
  similarity_score : ℚ
  priority : DocumentPriority
  weighted_score : ℚ
deriving DecidableEq

/-- An input dictionary for `rank_documents`: the code reads the keys
`content`, `metadata` and `score` with `.get` defaults. -/
structure CandidateDict where
  content : Option (List Char) := none
  metadata : Option PriorityMetadata := none
  score : Option ℚ := none
deriving DecidableEq

/-- The loop body of `rank_documents`: convert one candidate dictionary into a
`RankedDocument` (propagating a `ZeroDivisionError` from the weighted score). -/
def rank_convert (now : ℤ) (similarity_weight priority_weight : Option ℚ)
    (doc : CandidateDict) : Option RankedDocument :=
  let priority := extract_priority_from_metadata (doc.metadata.getD {}) now
  let similarity := doc.score.getD 0
  (calculate_weighted_score similarity priority similarity_weight priority_weight).map
    fun weighted =>
      { content := doc.content.getD []
        metadata := doc.metadata.getD {}
        similarity_score := similarity
        priority := priority
        weighted_score := weighted }

/-- The sort key order of `ranked.sort(key=lambda x: x.weighted_score,
reverse=True)`: descending weighted score. -/
def byWeightedScoreDesc (a b : RankedDocument) : Prop :=
  b.weighted_score ≤ a.weighted_score

instance : DecidableRel byWeightedScoreDesc := fun a b =>
  inferInstanceAs (Decidable (b.weighted_score ≤ a.weighted_score))

instance : IsTotal RankedDocument byWeightedScoreDesc :=
  ⟨fun a b => le_total b.weighted_score a.weighted_score⟩

instance : IsTrans RankedDocument byWeightedScoreDesc :=
  ⟨fun _ _ _ h h2 => le_trans h2 h⟩

/-- `rank_documents` from src/rag/priority.py.  Python's `list.sort` is a
stable sort; any two stable sorts under the same key order produce the same
list, so it is embedded as insertion sort with the descending key order. -/
def rank_documents (documents : List CandidateDict)
    (similarity_weight : Option ℚ := none) (priority_weight : Option ℚ := none)
    (now : ℤ := 0) : Option (List RankedDocument) :=
  (documents.mapM (rank_convert now similarity_weight priority_weight)).map
    fun ranked => ranked.insertionSort byWeightedScoreDesc

/-! ## src/storage/document_registry.py : two-tier metadata split and merge -/

/-- A Python dictionary with string keys, as an association list in insertion
order (keys unique). -/
abbrev PyDict (α : Type) : Type := List (List Char × α)

/-- Python `d[k] = v`: overwrite in place when the key exists, append otherwise. -/
def dictSet {α : Type} (d : PyDict α) (k : List Char) (v : α) : PyDict α :=
  if d.any (fun kv => kv.1 == k) then
    d.map (fun kv => if kv.1 == k then (k, v) else kv)
  else
    d ++ [(k, v)]

/-- Python `d.get(k)` / `k in d` on a `PyDict`. -/
def dictGet {α : Type} (d : PyDict α) (k : List Char) : Option α :=
  (d.find? (fun kv => kv.1 == k)).map (·.2)

def LIGHT_METADATA_FIELDS : List (List Char) :=
  [ "document_id".data, "source_type".data, "date".data, "date_end".data
  , "sender".data, "document_category".data, "contact_name".data
  , "normalized_name".data, "is_group_chat".data, "thread_type".data
  , "message_count".data, "participant_count".data ]

def HEAVY_METADATA_FIELDS : List (List Char) :=
  [ "file_path".data, "filename".data, "indexed_at".data, "is_pinned".data
  , "is_approved".data, "family_members".data, "work_history".data
  , "education".data, "shared_links".data, "media_types".data, "has_media".data
  , "reaction_count".data, "chat_name".data, "participants".data
  , "search_query".data
  , "full_name".data, "first_name".data, "last_name".data, "email".data
  , "phone".data, "birthday".data, "gender".data, "city".data, "hometown".data
  , "relationship_status".data, "partner".data, "username".data
  , "registration_date".data
  , "latitude".data, "longitude".data, "cities".data, "regions".data
  , "location_type".data, "record_count".data
  , "contact_type".data, "friendship_date".data ]

/-- The loop body of `DocumentRegistry.split_metadata`: route one key/value
pair into the light or heavy accumulator.  `pyStr` is Python's `str()`
rendering of a value. -/
def split_step {α : Type} (pyStr : α → List Char) (acc : PyDict α × PyDict α)
    (kv : List Char × α) : PyDict α × PyDict α :=
  let light := acc.1
  let heavy := acc.2
  let key := kv.1
  let value := kv.2
  if key ∈ LIGHT_METADATA_FIELDS then
    (dictSet light key value, heavy)
  else if key ∈ HEAVY_METADATA_FIELDS then
    (light, dictSet heavy key value)
  else
    let value_str := pyStr value
    if value_str.length > 100 then
      (light, dictSet heavy key value)
    else
      (dictSet light key value, heavy)

/-- `DocumentRegistry.split_metadata`. -/
def split_metadata {α : Type} (pyStr : α → List Char) (metadata : PyDict α) :
    PyDict α × PyDict α :=
  let lh := metadata.foldl (split_step pyStr) ([], [])
  -- Ensure document_id is in both (needed for linking)
  match dictGet metadata "document_id".data with
  | some v => (dictSet lh.1 "document_id".data v, dictSet lh.2 "document_id".data v)
  | none => lh

/-- Where `split_step` routes a pair that it processes: `true` = the light
half.  Derived reading of the branch structure, used to state the split
characterization. -/
def sendsToLight {α : Type} (pyStr : α → List Char) (key : List Char) (value : α) :
    Bool :=
  if key ∈ LIGHT_METADATA_FIELDS then true
  else if key ∈ HEAVY_METADATA_FIELDS then false
  else if (pyStr value).length > 100 then false
  else true

/-- `DocumentRegistry.merge_metadata`: `dict(light)` updated with the heavy
dictionary when one is given. -/
def merge_metadata {α : Type} (light_metadata : PyDict α)
    (heavy_metadata : Option (PyDict α)) : PyDict α :=
  let result := light_metadata
  match heavy_metadata with
  | none => result
  | some heavy => heavy.foldl (fun acc kv => dictSet acc kv.1 kv.2) result

/-! ## src/rag/forget.py -/

/-- Dataclass `ForgetResult`. -/
structure ForgetResult where
  success : Bool := false
  error : Option (List Char) := none
  document_id : Option (List Char) := none
  entity_type : Option (List Char) := none
  entity_value : Option (List Char) := none
  vectors_deleted : ℤ := 0
  chat_references_removed : ℤ := 0
  registry_updated : Bool := false
  audit_id : Option ℤ := none
deriving DecidableEq

/-- The collaborator calls made by `ForgetService.forget_document`; each call
can raise (the `.error` case carries the exception text `str(e)`). -/
structure ForgetStores where
  delete_document : List Char → Except (List Char) Bool
  purge_by_document : List Char → Except (List Char) ℤ
  mark_deleted : List Char → Except (List Char) Bool
  log_delete : (document_id reason : List Char) → (chunks_deleted : ℤ) →
    Except (List Char) ℤ

/-- `ForgetService.forget_document`.  The second component is the trace of
collaborator calls issued, in order; the `try`/`except` block of the source is
the propagation of the first raised error into `result.error`. -/
def forget_document (stores : ForgetStores) (document_id : List Char)
    (reason : List Char := "user_request".data) :
    ForgetResult × List (List Char) :=
  let result : ForgetResult := { document_id := some document_id }
  let trace := ["vector_store.delete_document".data]
  match stores.delete_document document_id with
  | .error e => ({ result with success := false, error := some e }, trace)
  | .ok deleted =>
    let result := if deleted then { result with vectors_deleted := 1 } else result
    let trace := trace ++ ["chat_history.purge_by_document".data]
    match stores.purge_by_document document_id with
    | .error e => ({ result with success := false, error := some e }, trace)
    | .ok n =>
      let result := { result with chat_references_removed := n }
      let trace := trace ++ ["document_registry.mark_deleted".data]
      match stores.mark_deleted document_id with
      | .error e => ({ result with success := false, error := some e }, trace)
      | .ok marked =>
        let result :=
          if marked then { result with registry_updated := true } else result
        let trace := trace ++ ["audit_logger.log_delete".data]
        match stores.log_delete document_id reason result.vectors_deleted with
        | .error e => ({ result with success := false, error := some e }, trace)
        | .ok aid => ({ result with audit_id := some aid, success := true }, trace)

/-! ## src/rag/query_engine.py : persistence of the query exchange -/

/-- One legacy-format source dictionary (`GroundedResponse.sources`). -/
structure SourceDict where
  content : List Char
  metadata : List (List Char × List Char)
  score : ℚ
deriving DecidableEq

/-- `GroundedResponse.sources`: citations in the legacy dictionary format. -/
def grounded_sources (citations : List Citation) : List SourceDict :=
  citations.map fun c => ⟨c.fragment, c.metadata, c.score⟩

/-- One `chat_history.add_message(...)` call. -/
structure AddMessageCall where
  conversation_id : ℤ
  role : List Char
  content : List Char
  sources : Option (List SourceDict) := none
deriving DecidableEq

/-- The outcome fields of `RAGEngine.query` relevant to grounding and
persistence. -/
structure QueryOutcome where
  answer : List Char
  citations : List Citation
  is_grounded : Bool
  no_context_found : Bool
  conversation_id : Option ℤ
deriving DecidableEq

/-- The answer-handling tail of `RAGEngine.query` (citation extraction,
grounding check, chat-history persistence).  The external retrieval and
generation collaborators are abstracted as the `source_nodes` (already in
`Citation` form, as produced by `extract_citations`) and `answer` inputs.  The
second component lists every `chat_history.add_message` call the method makes;
`add_message` is called nowhere else in `RAGEngine.query`
(`_build_question_with_context` only reads recent messages). -/
def query_persist (question : List Char) (conversation_id : Option ℤ)
    (include_sources : Bool) (source_nodes : List Citation)
    (answer : List Char) : QueryOutcome × List AddMessageCall :=
  let citations : List Citation :=
    if include_sources && !source_nodes.isEmpty then source_nodes else []
  let is_grounded := validate_grounding answer citations
  let no_context_found :=
    citations.isEmpty || strContains (pyLower answer) "could not find".data
  let sources := grounded_sources citations
  -- if conversation_id: (Python truthiness: None and 0 are falsy)
  let chat_calls : List AddMessageCall :=
    match conversation_id with
    | some cid =>
      if cid ≠ 0 then
        [ { conversation_id := cid, role := "user".data, content := question }
        , { conversation_id := cid, role := "assistant".data, content := answer
          , sources := some sources } ]
      else []
    | none => []
  (⟨answer, citations, is_grounded, no_context_found, conversation_id⟩, chat_calls)

/-! ## src/rag/query_preprocessor.py

The preprocessor applies Python regular expressions.  They are embedded as a
small backtracking matcher over an explicit pattern syntax tree: `re.search`
semantics (leftmost match, alternation tried left to right, greedy
quantifiers) with numbered capture groups and word boundaries. -/

/-- Python `\s` (the whitespace characters in play: ASCII whitespace). -/
def isSpaceChar (c : Char) : Bool :=
  c = ' ' || c = '\t' || c = '\n' || c = '\r' || c = Char.ofNat 11 || c = Char.ofNat 12

def polishLower : List Char := "ąćęłńóśźż".data

def polishUpper : List Char := "ĄĆĘŁŃÓŚŹŻ".data

/-- Python `\w` for the alphabets occurring in the repository's queries and
patterns: ASCII word characters plus the Polish diacritic letters. -/
def isWordChar (c : Char) : Bool :=
  c.isAlphanum || c = '_' || polishLower.elem c || polishUpper.elem c

/-- Pattern syntax: character classes, concatenation, alternation (left
preferred), greedy star and option, numbered capture groups, and the `\b`
word-boundary assertion. -/
inductive RE where
  | eps : RE
  | cls (p : Char → Bool) : RE
  | seq (a b : RE) : RE
  | alt (a b : RE) : RE
  | star (a : RE) : RE
  | opt (a : RE) : RE
  | group (n : Nat) (a : RE) : RE
  | wordB : RE

/-- One way a pattern can match from the current position: the last character
consumed (for later `\b` tests), the remaining suffix, and the captures made. -/
abbrev MatchOut : Type := Option Char × List Char × List (Nat × List Char)

/-- All ways `re` can match a prefix of `s`, in Python's backtracking
preference order (first element = the match `re.search` commits to).  `prev`
is the character just before the current position.  `fuel` decreases on every
recursive step so the definition is structurally recursive (and so reduces in
the kernel); a star iteration recurses only on a strictly shorter suffix
(every quantified sub-pattern here consumes at least one character), so the
recursion depth is at most `(reSize re + 1) * (s.length + 2)` and the fuel
given by `research` below is never exhausted. -/
def mrun : Nat → RE → Option Char → List Char → List MatchOut
  | 0, _, _, _ => []
  | fuel + 1, re, prev, s =>
    match re with
    | .eps => [(prev, s, [])]
    | .cls p =>
      match s with
      | [] => []
      | c :: rest => if p c then [(some c, rest, [])] else []
    | .seq a b =>
      (mrun fuel a prev s).flatMap fun o =>
        (mrun fuel b o.1 o.2.1).map fun o2 => (o2.1, o2.2.1, o.2.2 ++ o2.2.2)
    | .alt a b => mrun fuel a prev s ++ mrun fuel b prev s
    | .star a =>
      ((mrun fuel a prev s).flatMap fun o =>
        if o.2.1.length < s.length then
          (mrun fuel (.star a) o.1 o.2.1).map fun o2 => (o2.1, o2.2.1, o.2.2 ++ o2.2.2)
        else []) ++ [(prev, s, [])]
    | .opt a => mrun fuel a prev s ++ [(prev, s, [])]
    | .group n a =>
      (mrun fuel a prev s).map fun o =>
        (o.1, o.2.1, o.2.2 ++ [(n, s.take (s.length - o.2.1.length))])
    | .wordB =>
      let prevW := match prev with | some c => isWordChar c | none => false
      let nextW := match s with | c :: _ => isWordChar c | [] => false
      if prevW != nextW then [(prev, s, [])] else []

/-- Size of a pattern tree, for the fuel bound. -/
def reSize : RE → Nat
  | .eps => 1
  | .cls _ => 1
  | .seq a b => reSize a + reSize b + 1
  | .alt a b => reSize a + reSize b + 1
  | .star a => reSize a + 1
  | .opt a => reSize a + 1
  | .group _ a => reSize a + 1
  | .wordB => 1

/-- `re.search` scan: try each start position from the left, committing to the
first position where the pattern matches, with the backtracking-preferred
match there.  Returns (text before the match, matched text, captures, text
after the match). -/
def researchAux (re : RE) (prev : Option Char) (pre s : List Char) :
    Option (List Char × List Char × List (Nat × List Char) × List Char) :=
  match mrun ((reSize re + 1) * (s.length + 2)) re prev s with
  | o :: _ => some (pre.reverse, s.take (s.length - o.2.1.length), o.2.2, o.2.1)
  | [] =>
    match s with
    | [] => none
    | c :: rest => researchAux re (some c) (c :: pre) rest

def research (re : RE) (s : List Char) :
    Option (List Char × List Char × List (Nat × List Char) × List Char) :=
  researchAux re none [] s

/-- A single literal character. -/
def rchr (c : Char) : RE := .cls (fun x => x = c)

/-- A literal string. -/
def rstring (s : String) : RE := (s.data.map rchr).foldr .seq .eps

/-- `(?:a|b|...)` with Python's left-to-right preference. -/
def raltList : List RE → RE
  | [] => .cls (fun _ => false)
  | [r] => r
  | r :: rest => .alt r (raltList rest)

/-- `r+` (greedy). -/
def rplus (r : RE) : RE := .seq r (.star r)

/-- `r{n}`. -/
def rrep (r : RE) (n : Nat) : RE := (List.replicate n r).foldr .seq .eps

def clsUpperAZ : RE := .cls (fun c => 'A' ≤ c && c ≤ 'Z')
def clsLowerAZ : RE := .cls (fun c => 'a' ≤ c && c ≤ 'z')
def clsUpperPL : RE := .cls (fun c => ('A' ≤ c && c ≤ 'Z') || polishUpper.elem c)
def clsLowerPL : RE := .cls (fun c => ('a' ≤ c && c ≤ 'z') || polishLower.elem c)
def clsSpace : RE := .cls isSpaceChar
def clsDigit : RE := .cls Char.isDigit
def clsWord : RE := .cls isWordChar

/-- `\s+`. -/
def rsp : RE := rplus clsSpace

/-- `[A-Z][a-z]+(?:\s+[A-Z][a-z]+)?`: one or two capitalized English words. -/
def engName : RE :=
  .seq clsUpperAZ (.seq (rplus clsLowerAZ)
    (.opt (.seq rsp (.seq clsUpperAZ (rplus clsLowerAZ)))))

/-- A single capitalized Polish word. -/
def polWord : RE := .seq clsUpperPL (rplus clsLowerPL)

/-- One or two capitalized Polish words. -/
def polName : RE := .seq polWord (.opt (.seq rsp polWord))

def engVerbs : RE :=
  raltList [rstring "said", rstring "wrote", rstring "mentioned", rstring "told"]

def polVerbs : RE :=
  raltList [rstring "powiedział", rstring "napisał", rstring "wspomniał", rstring "mówił"]

/-- `PERSON_PATTERNS`, in source order. -/
def PERSON_PATTERNS : List RE :=
  [ .seq (raltList [rstring "from", rstring "by", rstring "with"])
      (.seq rsp (.group 1 engName))
  , .seq engVerbs (.seq rsp (.seq (.opt (.seq (rstring "by") rsp)) (.group 1 engName)))
  , .seq (.group 1 engName) (.seq rsp engVerbs)
  , .seq (rstring "conversation") (.seq (.opt (rstring "s"))
      (.seq rsp (.seq (rstring "with") (.seq rsp (.group 1 engName)))))
  , .seq (rstring "chat") (.seq (.opt (rstring "s"))
      (.seq rsp (.seq (rstring "with") (.seq rsp (.group 1 engName)))))
  , .seq (raltList [rstring "od", rstring "z"]) (.seq rsp (.group 1 polName))
  , .seq polVerbs (.seq rsp (.group 1 polWord))
  , .seq (.group 1 polName) (.seq rsp polVerbs)
  , .seq (rstring "rozmow") (.seq (raltList [rstring "a", rstring "y"])
      (.seq rsp (.seq (rstring "z") (.seq rsp (.group 1 polName)))))
  , .seq (rstring "wiadomości") (.seq rsp (.seq (rstring "od") (.seq rsp (.group 1 polWord)))) ]

/-- `match.group(n)` on the capture list. -/
def caps_get (caps : List (Nat × List Char)) (n : Nat) : List Char :=
  ((caps.find? (fun g => g.1 == n)).map (·.2)).getD []

/-- The common-word rejection set in `_extract_person`. -/
def person_stoplist : List (List Char) :=
  [ "the".data, "a".data, "an".data, "to".data, "do".data, "co".data
  , "jak".data, "i".data ]

/-- The pattern loop of `QueryPreprocessor._extract_person`: the first pattern
that matches with a non-stoplisted name wins, and its match is removed
(`re.sub(..., count=1)`). -/
def extract_person_loop (query : List Char) :
    List RE → Option (List Char × List Char)
  | [] => none
  | p :: rest =>
    match research p query with
    | some (before, _matched, caps, after) =>
      let person := caps_get caps 1
      if person_stoplist.contains (pyLower person) then
        extract_person_loop query rest
      else
        some (person, before ++ after)
    | none => extract_person_loop query rest

/-- `QueryPreprocessor._extract_person`. -/
def extract_person (query : List Char) : Option (List Char) × List Char :=
  match extract_person_loop query PERSON_PATTERNS with
  | some (p, q) => (some p, q)
  | none => (none, query)

/-- A `datetime.datetime` value (microseconds are never observed by this
module and are omitted). -/
structure DateTime where
  year : ℤ
  month : ℤ
  day : ℤ
  hour : ℤ
  minute : ℤ
  second : ℤ
deriving DecidableEq

def isLeapYear (y : ℤ) : Bool := (y % 4 = 0 && y % 100 ≠ 0) || y % 400 = 0

def daysInMonth (y m : ℤ) : ℤ :=
  if m = 2 then (if isLeapYear y then 29 else 28)
  else if m = 4 || m = 6 || m = 9 || m = 11 then 30
  else 31

/-- `datetime(year, month, 1)`: the constructor raises `ValueError` outside
years 1..9999 (`none`); months at the call sites are always 1..12. -/
def mkMonthStart (y m : ℤ) : Option DateTime :=
  if 1 ≤ y && y ≤ 9999 then some ⟨y, m, 1, 0, 0, 0⟩ else none

/-- The previous calendar day (date part only). -/
def dtPredDay (d : DateTime) : DateTime :=
  if d.day > 1 then { d with day := d.day - 1 }
  else if d.month > 1 then
    { d with month := d.month - 1, day := daysInMonth d.year (d.month - 1) }
  else { d with year := d.year - 1, month := 12, day := 31 }

/-- `dt - timedelta(seconds=1)`. -/
def dtSubSecond (d : DateTime) : DateTime :=
  if d.second > 0 then { d with second := d.second - 1 }
  else if d.minute > 0 then { d with minute := d.minute - 1, second := 59 }
  else if d.hour > 0 then { d with hour := d.hour - 1, minute := 59, second := 59 }
  else
    let p := dtPredDay d
    { p with hour := 23, minute := 59, second := 59 }

/-- Days since 1970-01-01 of a civil date (standard civil-calendar conversion;
`/` and `%` on `ℤ` are floor division and nonnegative remainder, as in
Python). -/
def daysFromCivil (y m d : ℤ) : ℤ :=
  let yy := if m ≤ 2 then y - 1 else y
  let era := yy / 400
  let yoe := yy - era * 400
  let mp := (m + 9) % 12
  let doy := (153 * mp + 2) / 5 + d - 1
  let doe := yoe * 365 + yoe / 4 - yoe / 100 + doy
  era * 146097 + doe - 719468

/-- Civil date from days since 1970-01-01. -/
def civilFromDays (z0 : ℤ) : ℤ × ℤ × ℤ :=
  let z := z0 + 719468
  let era := z / 146097
  let doe := z - era * 146097
  let yoe := (doe - doe / 1460 + doe / 36524 - doe / 146096) / 365
  let y := yoe + era * 400
  let doy := doe - (365 * yoe + yoe / 4 - yoe / 100)
  let mp := (5 * doy + 2) / 153
  let d := doy - (153 * mp + 2) / 5 + 1
  let m := mp + (if mp < 10 then 3 else -9)
  (y + (if m ≤ 2 then 1 else 0), m, d)

/-- `dt - timedelta(days=k)` (time of day preserved). -/
def dtSubDays (dt : DateTime) (k : ℤ) : DateTime :=
  let c := civilFromDays (daysFromCivil dt.year dt.month dt.day - k)
  { dt with year := c.1, month := c.2.1, day := c.2.2 }

/-- `datetime.weekday()`: Monday is 0.  1970-01-01 was a Thursday. -/
def dtWeekday (dt : DateTime) : ℤ :=
  (daysFromCivil dt.year dt.month dt.day + 3) % 7

/-- `QueryPreprocessor._month_range`; `none` is the `ValueError` raised by the
`datetime` constructor for years outside 1..9999. -/
def month_range (year month : ℤ) : Option (DateTime × DateTime) :=
  match mkMonthStart year month with
  | none => none
  | some start =>
    if month = 12 then
      (mkMonthStart (year + 1) 1).map fun e => (start, dtSubSecond e)
    else
      (mkMonthStart year (month + 1)).map fun e => (start, dtSubSecond e)

/-- The `MONTHS` name table (English and Polish). -/
def MONTHS : List (List Char × ℤ) :=
  [ ("january".data, 1), ("february".data, 2), ("march".data, 3)
  , ("april".data, 4), ("may".data, 5), ("june".data, 6), ("july".data, 7)
  , ("august".data, 8), ("september".data, 9), ("october".data, 10)
  , ("november".data, 11), ("december".data, 12)
  , ("stycznia".data, 1), ("styczeń".data, 1), ("styczen".data, 1)
  , ("lutego".data, 2), ("luty".data, 2)
  , ("marca".data, 3), ("marzec".data, 3)
  , ("kwietnia".data, 4), ("kwiecień".data, 4), ("kwiecien".data, 4)
  , ("maja".data, 5), ("maj".data, 5)
  , ("czerwca".data, 6), ("czerwiec".data, 6)
  , ("lipca".data, 7), ("lipiec".data, 7)
  , ("sierpnia".data, 8), ("sierpień".data, 8), ("sierpien".data, 8)
  , ("września".data, 9), ("wrzesień".data, 9), ("wrzesien".data, 9)
  , ("października".data, 10), ("październik".data, 10), ("pazdziernik".data, 10)
  , ("listopada".data, 11), ("listopad".data, 11)
  , ("grudnia".data, 12), ("grudzień".data, 12), ("grudzien".data, 12) ]

inductive DatePatternType where
  | month_year | relative | relative_this | year_month | month_year_num
deriving DecidableEq

/-- `DATE_PATTERNS`, in source order. -/
def DATE_PATTERNS : List (RE × DatePatternType) :=
  [ (.seq (raltList [rstring "in", rstring "w"])
      (.seq rsp (.seq (.group 1 (rplus clsWord)) (.seq rsp (.group 2 (rrep clsDigit 4)))))
    , .month_year)
  , (.seq (raltList [rstring "from", rstring "od"])
      (.seq rsp (.seq (.group 1 (rplus clsWord)) (.seq rsp (.group 2 (rrep clsDigit 4)))))
    , .month_year)
  , (.seq (raltList [rstring "during", rstring "podczas"])
      (.seq rsp (.seq (.group 1 (rplus clsWord)) (.seq rsp (.group 2 (rrep clsDigit 4)))))
    , .month_year)
  , (.seq (raltList
        [ rstring "last"
        , .seq (rstring "poprzedni") (.opt (raltList [rstring "ego", rstring "m"]))
        , rstring "zeszły", rstring "zeszłym" ])
      (.seq rsp (.group 1 (raltList
        [ rstring "week", rstring "month", rstring "year", rstring "tydzień"
        , rstring "tygodniu", rstring "miesiąc", rstring "miesiącu"
        , rstring "rok", rstring "roku" ])))
    , .relative)
  , (.seq (raltList [rstring "this", rstring "w tym", rstring "tym"])
      (.seq rsp (.group 1 (raltList
        [ rstring "week", rstring "month", rstring "year", rstring "tygodniu"
        , rstring "miesiącu", rstring "roku" ])))
    , .relative_this)
  , (.seq (.group 1 (rrep clsDigit 4)) (.seq (rchr '-') (.group 2 (.seq clsDigit (.opt clsDigit))))
    , .year_month)
  , (.seq (.group 1 (.seq clsDigit (.opt clsDigit))) (.seq (rchr '/') (.group 2 (rrep clsDigit 4)))
    , .month_year_num) ]

/-- `int()` on a digit string. -/
def digitsToInt (s : List Char) : ℤ :=
  s.foldl (fun acc c => acc * 10 + ((c.toNat : ℤ) - 48)) 0

/-- `QueryPreprocessor._parse_date_match`.  The outer `Option` is exception
propagation (`month_range` can raise); the inner `Option` is the function's
`None` result (no usable range, the pattern loop then continues). -/
def parse_date_match (now : DateTime) (caps : List (Nat × List Char))
    (ptype : DatePatternType) : Option (Option (DateTime × DateTime)) :=
  match ptype with
  | .month_year =>
    let month_str := pyLower (caps_get caps 1)
    let year := digitsToInt (caps_get caps 2)
    match lookupDict MONTHS month_str with
    | some month =>
      match month_range year month with
      | some r => some (some r)
      | none => none
    | none => some none
  | .year_month =>
    let year := digitsToInt (caps_get caps 1)
    let month := digitsToInt (caps_get caps 2)
    if 1 ≤ month && month ≤ 12 then
      match month_range year month with
      | some r => some (some r)
      | none => none
    else some none
  | .month_year_num =>
    let month := digitsToInt (caps_get caps 1)
    let year := digitsToInt (caps_get caps 2)
    if 1 ≤ month && month ≤ 12 then
      match month_range year month with
      | some r => some (some r)
      | none => none
    else some none
  | .relative =>
    let period := pyLower (caps_get caps 1)
    if period ∈ ["week".data, "tydzień".data, "tygodniu".data] then
      some (some (dtSubDays now 7, now))
    else if period ∈ ["month".data, "miesiąc".data, "miesiącu".data] then
      some (some (dtSubDays now 30, now))
    else if period ∈ ["year".data, "rok".data, "roku".data] then
      some (some (dtSubDays now 365, now))
    else some none
  | .relative_this =>
    let period := pyLower (caps_get caps 1)
    if period ∈ ["week".data, "tygodniu".data] then
      let start := dtSubDays now (dtWeekday now)
      some (some ({ start with hour := 0, minute := 0, second := 0 }, now))
    else if period ∈ ["month".data, "miesiącu".data] then
      some (some ({ now with day := 1, hour := 0, minute := 0, second := 0 }, now))
    else if period ∈ ["year".data, "roku".data] then
      some (some ({ now with month := 1, day := 1, hour := 0, minute := 0, second := 0 }, now))
    else some none

/-- The pattern loop of `_extract_date_range`.  The search runs on the
lowercase copy of the query; `re.sub(..., flags=IGNORECASE, count=1)` removes
from the original query the same character span, since the case-insensitive
leftmost match on the original coincides with the leftmost match on the
per-character lowercased copy. -/
def extract_date_loop (now : DateTime) (query_lower query : List Char) :
    List (RE × DatePatternType) → Option (Option ((DateTime × DateTime) × List Char))
  | [] => some none
  | (p, ptype) :: rest =>
    match research p query_lower with
    | some (before, matched, caps, _after) =>
      match parse_date_match now caps ptype with
      | none => none
      | some none => extract_date_loop now query_lower query rest
      | some (some dr) =>
        some (some (dr, query.take before.length ++ query.drop (before.length + matched.length)))
    | none => extract_date_loop now query_lower query rest

/-- `QueryPreprocessor._extract_date_range` (outer `none` = exception). -/
def extract_date_range (now : DateTime) (query : List Char) :
    Option (Option (DateTime × DateTime) × List Char) :=
  match extract_date_loop now (pyLower query) query DATE_PATTERNS with
  | none => none
  | some none => some (none, query)
  | some (some (dr, q)) => some (some dr, q)

/-- `SOURCE_PATTERNS`, in source order. -/
def SOURCE_PATTERNS : List (RE × List Char) :=
  [ (.seq .wordB (.seq (raltList
        [ rstring "email", rstring "e-mail", rstring "mail", rstring "maile"
        , rstring "emaile" ]) .wordB)
    , "email".data)
  , (.seq .wordB (.seq (raltList
        [ rstring "messenger", rstring "facebook", rstring "fb" ]) .wordB)
    , "messenger".data)
  , (.seq .wordB (.seq (raltList [rstring "whatsapp", rstring "wa"]) .wordB)
    , "whatsapp".data)
  , (.seq .wordB (.seq (raltList
        [ .seq (rstring "notatk") (.cls (fun c => c = 'a' || c = 'i'))
        , .seq (rstring "note") (.opt (rchr 's')) ]) .wordB)
    , "text".data) ]

/-- The pattern loop of `QueryPreprocessor._extract_source` (search on the
lowercase copy, removal from the original, as for dates). -/
def extract_source_loop (query_lower query : List Char) :
    List (RE × List Char) → Option (List Char × List Char)
  | [] => none
  | (p, stype) :: rest =>
    match research p query_lower with
    | some (before, matched, _caps, _after) =>
      some (stype, query.take before.length ++ query.drop (before.length + matched.length))
    | none => extract_source_loop query_lower query rest

/-- `QueryPreprocessor._extract_source`. -/
def extract_source (query : List Char) : Option (List Char) × List Char :=
  match extract_source_loop (pyLower query) query SOURCE_PATTERNS with
  | some (s, q) => (some s, q)
  | none => (none, query)

/-- The scan behind `re.sub(r"\s+", " ", query)`: `prevSpace` records whether
the previous character was part of a whitespace run already replaced. -/
def collapseWsAux (prevSpace : Bool) : List Char → List Char
  | [] => []
  | c :: rest =>
    if isSpaceChar c then
      if prevSpace then collapseWsAux true rest
      else ' ' :: collapseWsAux true rest
    else c :: collapseWsAux false rest

/-- `re.sub(r"\s+", " ", query)`: each maximal whitespace run becomes one
space. -/
def collapseWs (q : List Char) : List Char := collapseWsAux false q

/-- Python `str.strip()`. -/
def pyStrip (s : List Char) : List Char :=
  ((s.dropWhile isSpaceChar).reverse.dropWhile isSpaceChar).reverse

/-- The alternatives of `^(?:from|by|with|in|od|z|w|o)\s+`, in source order. -/
def leading_preps : List (List Char) :=
  [ "from".data, "by".data, "with".data, "in".data, "od".data, "z".data
  , "w".data, "o".data ]

/-- `re.sub(r"^(?:from|by|with|in|od|z|w|o)\s+", "", query, flags=IGNORECASE)`:
remove a leading preposition (first alternative that fits, case-insensitive)
together with the whitespace run after it. -/
def stripLeadingPrep (q : List Char) : List Char :=
  match leading_preps.findSome? (fun p =>
    if p.isPrefixOf (pyLower q) then
      match q.drop p.length with
      | c :: rest => if isSpaceChar c then some (rest.dropWhile isSpaceChar) else none
      | [] => none
    else none) with
  | some rest => rest
  | none => q

/-- `re.sub(r"[,;:]+$", "", query)`. -/
def stripTrailingPunct (q : List Char) : List Char :=
  (q.reverse.dropWhile (fun c => c = ',' || c = ';' || c = ':')).reverse

/-- `QueryPreprocessor._clean_query`. -/
def clean_query (query : List Char) : List Char :=
  pyStrip (stripTrailingPunct (stripLeadingPrep (pyStrip (collapseWs query))))

/-- Dataclass `PreprocessedQuery`. -/
structure PreprocessedQuery where
  clean_query : List Char
  person_filter : Option (List Char) := none
  date_range : Option (DateTime × DateTime) := none
  source_filter : Option (List Char) := none
  extracted_filters : List (List Char × List Char) := []
deriving DecidableEq

/-- Decimal rendering, zero-padded to `width` digits. -/
def padNum (width : Nat) (n : ℤ) : List Char :=
  let s := n.toNat.repr.data
  List.replicate (width - s.length) '0' ++ s

/-- `datetime.date()` rendered as `YYYY-MM-DD` (as interpolated into the
`extracted_filters` display string). -/
def formatDate (d : DateTime) : List Char :=
  padNum 4 d.year ++ "-".data ++ padNum 2 d.month ++ "-".data ++ padNum 2 d.day

/-- `QueryPreprocessor.preprocess`.  `now` is `datetime.now()`; the result is
`none` when the underlying `datetime` construction raises (which propagates
out of `preprocess`). -/
def preprocess (now : DateTime) (query : List Char) : Option PreprocessedQuery :=
  let pr := extract_person query
  match extract_date_range now pr.2 with
  | none => none
  | some (dr, q2) =>
    let sr := extract_source q2
    let extracted : List (List Char × List Char) :=
      (match pr.1 with
       | some p => [("person".data, p)]
       | none => [])
      ++ (match dr with
          | some r =>
            [("date_range".data, formatDate r.1 ++ " to ".data ++ formatDate r.2)]
          | none => [])
      ++ (match sr.1 with
          | some s => [("source".data, s)]
          | none => [])
    some
      { clean_query := clean_query sr.2
      , person_filter := pr.1
      , date_range := dr
      , source_filter := sr.1
      , extracted_filters := extracted }

/-- A concrete clock instant used when evaluating the preprocessor on
concrete queries whose extraction does not depend on the current time. -/
def sampleNow : DateTime := ⟨2024, 1, 1, 0, 0, 0⟩

/-- The cleaned-query shape claimed by the specification: the input with
"runs of whitespace collapsed, leading/trailing whitespace removed" and
nothing else.  Written from the spec's words, to be compared with the code's
`clean_query`. -/
def specWhitespaceNormalize (q : List Char) : List Char := pyStrip (collapseWs q)

/-- A concrete metadata dictionary (string values, `pyStr = id`) used to
evaluate the split/merge round trip on a concrete input. -/
def sample_metadata : PyDict (List Char) :=
  [ ("document_id".data, "d1".data)
  , ("source_type".data, "email".data)
  , ("custom".data, "short".data)
  , ("blob".data, List.replicate 101 'z')
  , ("file_path".data, "/tmp/x".data) ]

/-! ## Theorems -/

set_option maxRecDepth 100000

/-- Helper: when none of the person, date and source extractions find
anything, `preprocess` returns the query passed through `_clean_query`, with
all filter fields unset and no extracted filters, and does not raise. -/
theorem preprocess_of_no_match (now : DateTime) (q : List Char)
    (hp : extract_person q = (none, q))
    (hd : extract_date_range now q = some (none, q))
    (hs : extract_source q = (none, q)) :
    preprocess now q = some
      { clean_query := clean_query q, person_filter := none, date_range := none,
        source_filter := none, extracted_filters := [] } := by
  simp [preprocess, hp, hd, hs]

/-- Claim C1 (amended): `validate_grounding` returns `True` exactly when the
answer contains a refusal phrase, or contains an inline citation marker, or
the citation list is empty; equivalently it returns `False` only for a
non-empty citation list with neither refusal phrase nor marker.  (The
short-answer test of clause (c) never decides the result: an empty citation
list alone already yields `True` through the final fallback.) -/
theorem claim_C1_amended (answer : List Char) (citations : List Citation) :
    validate_grounding answer citations =
      ((no_info_phrases.any fun p => strContains (pyLower answer) p)
        || (strContains (pyLower answer) "[source:".data
            || strContains (pyLower answer) "[source ".data)
        || citations.isEmpty) := by
  unfold validate_grounding
  cases hA : no_info_phrases.any fun p => strContains (pyLower answer) p <;>
  cases hM1 : strContains (pyLower answer) "[source:".data <;>
  cases hM2 : strContains (pyLower answer) "[source ".data <;>
  cases hE : citations.isEmpty <;>
  cases hL : decide (answer.length < 100) <;>
  simp_all

/-- Claim C1 (counterexample): a 100-character answer with no citations, no
refusal phrase and no citation marker is judged grounded by the code, while
the claim's condition (b)/(c) is false for it (empty citations but not short,
no marker). -/
theorem claim_C1_counterexample :
    validate_grounding (List.replicate 100 'x') [] = true
    ∧ spec_grounding_condition (List.replicate 100 'x') [] = false := by decide

/-- Claim C2 (code bug): for a date 3650 days in the future with
`max_age_days = 365`, `age_days` is negative and the recency contribution is
`1 - (-3650)/365 = 11`, far above the documented `0.0 to 1.0` range, so the
claimed bound `recency_contribution ≤ 1` fails on the code. -/
theorem claim_C2_failing_input :
    (calculate_priority none none (some (PyDate.valid 3650)) false false
        (some 365) 0).recency_contribution = 11
    ∧ ¬ (calculate_priority none none (some (PyDate.valid 3650)) false false
        (some 365) 0).recency_contribution ≤ 1 := by
  constructor
  · simp only [calculate_priority]
    norm_num
  · simp only [calculate_priority]
    norm_num

/-- Claim C3 (confirmed): whenever `rank_documents` succeeds, its output is
sorted non-increasingly by weighted score, is a permutation of the converted
input, and is stable: for every score value, the output's documents with that
score are exactly the converted input's documents with that score, in the
same order. -/
theorem claim_C3_rank_documents (documents : List CandidateDict)
    (sw pw : Option ℚ) (now : ℤ) (out : List RankedDocument)
    (h : rank_documents documents sw pw now = some out) :
    List.Sorted byWeightedScoreDesc out
    ∧ ∃ converted : List RankedDocument,
        documents.mapM (rank_convert now sw pw) = some converted
        ∧ converted.Perm out
        ∧ ∀ q : ℚ, out.filter (fun d => decide (d.weighted_score = q))
            = converted.filter (fun d => decide (d.weighted_score = q)) := by
  unfold rank_documents at h
  obtain ⟨converted, hmap, hout⟩ := Option.map_eq_some'.mp h
  refine ⟨?_, converted, hmap, ?_, ?_⟩
  · rw [← hout]
    exact List.sorted_insertionSort byWeightedScoreDesc converted
  · rw [← hout]
    exact (List.perm_insertionSort byWeightedScoreDesc converted).symm
  · intro q
    rw [← hout]
    have hpw : (converted.filter (fun d => decide (d.weighted_score = q))).Pairwise
        byWeightedScoreDesc := by
      apply List.pairwise_of_forall_mem_list
      intro a ha b hb
      have ha2 := of_decide_eq_true (List.mem_filter.mp ha).2
      have hb2 := of_decide_eq_true (List.mem_filter.mp hb).2
      unfold byWeightedScoreDesc
      rw [ha2, hb2]
    have hsub : List.Sublist (converted.filter (fun d => decide (d.weighted_score = q)))
        (converted.insertionSort byWeightedScoreDesc) :=
      List.sublist_insertionSort hpw converted.filter_sublist
    have hperm : ((converted.insertionSort byWeightedScoreDesc).filter
          (fun d => decide (d.weighted_score = q))).Perm
        (converted.filter (fun d => decide (d.weighted_score = q))) :=
      (List.perm_insertionSort byWeightedScoreDesc converted).filter _
    have hAB : List.Sublist (converted.filter (fun d => decide (d.weighted_score = q)))
        ((converted.insertionSort byWeightedScoreDesc).filter
          (fun d => decide (d.weighted_score = q))) := by
      have h2 := hsub.filter (fun d => decide (d.weighted_score = q))
      rwa [List.filter_eq_self.mpr (fun a ha => (List.mem_filter.mp ha).2)] at h2
    exact (hAB.eq_of_length hperm.length_eq.symm).symm

/-- Claim C3 witness: the theorem applied to the empty input list. -/
theorem claim_C3_witness :
    List.Sorted byWeightedScoreDesc ([] : List RankedDocument)
    ∧ ∃ converted : List RankedDocument,
        ([] : List CandidateDict).mapM (rank_convert 0 none none) = some converted
        ∧ converted.Perm []
        ∧ ∀ q : ℚ, ([] : List RankedDocument).filter (fun d => decide (d.weighted_score = q))
            = converted.filter (fun d => decide (d.weighted_score = q)) :=
  claim_C3_rank_documents [] none none 0 [] rfl

/-- Claim C4 (amended): when the caller supplies two non-zero weights (a zero
weight is falsy in Python and is replaced by the configured default) whose sum
is neither 0 nor 1, the weights are normalized by their sum and combined; when
the supplied weights sum to 0, the normalization divides by zero and the call
raises instead of returning. -/
theorem claim_C4_amended (s : ℚ) (p : DocumentPriority) (sw pw : ℚ)
    (hsw : sw ≠ 0) (hpw : pw ≠ 0) (h0 : sw + pw ≠ 0) (h1 : sw + pw ≠ 1) :
    calculate_weighted_score s p (some sw) (some pw) =
      some ((sw / (sw + pw)) * s + (pw / (sw + pw)) * p.priority_score) := by
  unfold calculate_weighted_score pyOrQ
  simp only [if_neg hsw, if_neg hpw, if_pos h1, if_neg h0]

/-- Claim C4 (counterexample): the weight pair `(-1/2, 1/2)` sums to 0 (hence
not to 1), and the call fails with `ZeroDivisionError` instead of returning a
normalized combination. -/
theorem claim_C4_counterexample :
    ((-1/2 : ℚ) + 1/2 ≠ 1)
    ∧ calculate_weighted_score 1 (calculate_priority none none none false false none 0)
        (some (-1/2)) (some (1/2)) = none := by
  constructor
  · norm_num
  · unfold calculate_weighted_score pyOrQ
    norm_num

/-- Claim C4 witness: weights `(3/10, 3/10)` (sum `3/5`) are normalized to
`(1/2, 1/2)`. -/
theorem claim_C4_witness :
    calculate_weighted_score 1 (calculate_priority none none none false false none 0)
        (some (3/10)) (some (3/10)) =
      some (((3/10) / ((3/10) + (3/10))) * 1
        + ((3/10) / ((3/10) + (3/10)))
          * (calculate_priority none none none false false none 0).priority_score) :=
  claim_C4_amended 1 (calculate_priority none none none false false none 0)
    (3/10) (3/10) (by norm_num) (by norm_num) (by norm_num) (by norm_num)

/-- Claim C5 (amended): on a query where person, date and source extraction
all find nothing, `preprocess` leaves all filter fields unset, extracts no
filters, does not raise, and returns the input passed through `_clean_query`
— which normalizes whitespace but additionally removes a leading dangling
preposition and trailing `,;:` punctuation, so the result is not in general
the merely whitespace-normalized input. -/
theorem claim_C5_amended (now : DateTime) (q : List Char)
    (hp : extract_person q = (none, q))
    (hd : extract_date_range now q = some (none, q))
    (hs : extract_source q = (none, q)) :
    preprocess now q = some
      { clean_query := clean_query q, person_filter := none, date_range := none,
        source_filter := none, extracted_filters := [] } :=
  preprocess_of_no_match now q hp hd hs

/-- Claim C5 (counterexample): no pattern matches `"hello there:"`, yet its
cleaned query is `"hello there"` (trailing punctuation removed), not the
whitespace-normalized input `"hello there:"` the claim requires. -/
theorem claim_C5_counterexample :
    extract_person "hello there:".data = (none, "hello there:".data)
    ∧ extract_date_range sampleNow "hello there:".data = some (none, "hello there:".data)
    ∧ extract_source "hello there:".data = (none, "hello there:".data)
    ∧ (preprocess sampleNow "hello there:".data).map (·.clean_query)
        = some "hello there".data
    ∧ specWhitespaceNormalize "hello there:".data = "hello there:".data
    ∧ "hello there".data ≠ "hello there:".data := by decide

/-- Claim C5 witness: the amended theorem applied to `"hello world"`. -/
theorem claim_C5_witness :
    preprocess sampleNow "hello world".data = some
      { clean_query := clean_query "hello world".data, person_filter := none,
        date_range := none, source_filter := none, extracted_filters := [] } :=
  claim_C5_amended sampleNow "hello world".data (by decide) (by decide) (by decide)

/-- Claim C6 (amended): re-running `preprocess` on a result's `clean_query`
extracts no further filters provided no person, date or source pattern
matches the cleaned output; preprocessing is not idempotent in general, since
a query with a second extractable reference yields further filters on the
second pass (see the counterexample). -/
theorem claim_C6_amended (now : DateTime) (q : List Char) (r : PreprocessedQuery)
    (_h : preprocess now q = some r)
    (hp : extract_person r.clean_query = (none, r.clean_query))
    (hd : extract_date_range now r.clean_query = some (none, r.clean_query))
    (hs : extract_source r.clean_query = (none, r.clean_query)) :
    preprocess now r.clean_query = some
      { clean_query := clean_query r.clean_query, person_filter := none,
        date_range := none, source_filter := none, extracted_filters := [] } :=
  preprocess_of_no_match now r.clean_query hp hd hs

/-- Claim C6 (counterexample): preprocessing `"Anna told Bob wrote the doc"`
extracts person `"Bob"` and cleans to `"Anna wrote the doc"`; preprocessing
that cleaned output extracts the further person filter `"Anna"`, refuting
idempotence. -/
theorem claim_C6_counterexample :
    (preprocess sampleNow "Anna told Bob wrote the doc".data).map (·.clean_query)
      = some "Anna wrote the doc".data
    ∧ (preprocess sampleNow "Anna wrote the doc".data).map (·.person_filter)
      = some (some "Anna".data) := by decide

/-- Claim C6 witness: the amended theorem applied to `"hello from Ewa"`,
whose first pass extracts `"Ewa"` and cleans to `"hello"`, on which nothing
further matches. -/
theorem claim_C6_witness :
    preprocess sampleNow
        (PreprocessedQuery.mk "hello".data (some "Ewa".data) none none
          [("person".data, "Ewa".data)]).clean_query
      = some
        { clean_query := clean_query "hello".data, person_filter := none,
          date_range := none, source_filter := none, extracted_filters := [] } :=
  claim_C6_amended sampleNow "hello from Ewa".data
    (PreprocessedQuery.mk "hello".data (some "Ewa".data) none none
      [("person".data, "Ewa".data)])
    (by decide) (by decide) (by decide) (by decide)

/-- Claim C8 (confirmed): for any current instant, preprocessing
`"messages from Ewa about vacation in December 2021"` extracts person
`"Ewa"` and the date range 2021-12-01T00:00:00 .. 2021-12-31T23:59:59. -/
theorem claim_C8_scenario (now : DateTime) :
    preprocess now "messages from Ewa about vacation in December 2021".data =
      some { clean_query := "messages about vacation".data
           , person_filter := some "Ewa".data
           , date_range := some (⟨2021, 12, 1, 0, 0, 0⟩, ⟨2021, 12, 31, 23, 59, 59⟩)
           , source_filter := none
           , extracted_filters :=
              [ ("person".data, "Ewa".data)
              , ("date_range".data, "2021-12-01 to 2021-12-31".data) ] } := rfl

/-- Claim C9 (confirmed): when the vector store reports no deletion, the chat
purge removes nothing, and the registry does not find the document — none of
them raising — `forget_document` still performs all four steps including the
audit log, and returns success with zero counts and no error. -/
theorem claim_C9_forget_nonexistent (stores : ForgetStores) (d r : List Char)
    (aid : ℤ)
    (h1 : stores.delete_document d = .ok false)
    (h2 : stores.purge_by_document d = .ok 0)
    (h3 : stores.mark_deleted d = .ok false)
    (h4 : stores.log_delete d r 0 = .ok aid) :
    forget_document stores d r =
      ({ success := true, error := none, document_id := some d,
         entity_type := none, entity_value := none,
         vectors_deleted := 0, chat_references_removed := 0,
         registry_updated := false, audit_id := some aid },
       [ "vector_store.delete_document".data
       , "chat_history.purge_by_document".data
       , "document_registry.mark_deleted".data
       , "audit_logger.log_delete".data ]) := by
  simp [forget_document, h1, h2, h3, h4]

/-- Claim C9 witness: the theorem applied to concrete stores in which the
document exists nowhere. -/
theorem claim_C9_witness :
    forget_document
        ⟨fun _ => .ok false, fun _ => .ok 0, fun _ => .ok false, fun _ _ _ => .ok 7⟩
        "doc-1".data "user_request".data =
      ({ success := true, error := none, document_id := some "doc-1".data,
         entity_type := none, entity_value := none,
         vectors_deleted := 0, chat_references_removed := 0,
         registry_updated := false, audit_id := some 7 },
       [ "vector_store.delete_document".data
       , "chat_history.purge_by_document".data
       , "document_registry.mark_deleted".data
       , "audit_logger.log_delete".data ]) :=
  claim_C9_forget_nonexistent
    ⟨fun _ => .ok false, fun _ => .ok 0, fun _ => .ok false, fun _ _ _ => .ok 7⟩
    "doc-1".data "user_request".data 7 rfl rfl rfl rfl

/-- Claim C10 (confirmed): with a `None` or zero (falsy) conversation id the
query path issues no `add_message` call at all, whatever the answer and
sources; with a truthy conversation id it issues exactly the user/assistant
pair. -/
theorem claim_C10_no_persistence_without_conversation (question : List Char)
    (include_sources : Bool) (source_nodes : List Citation) (answer : List Char)
    (c : ℤ) :
    (query_persist question none include_sources source_nodes answer).2 = []
    ∧ (query_persist question (some 0) include_sources source_nodes answer).2 = []
    ∧ (c ≠ 0 →
        (query_persist question (some c) include_sources source_nodes answer).2 =
          [ { conversation_id := c, role := "user".data, content := question }
          , { conversation_id := c, role := "assistant".data, content := answer
            , sources := some (grounded_sources
                (if include_sources && !source_nodes.isEmpty then source_nodes
                 else [])) } ]) := by
  refine ⟨?_, ?_, ?_⟩
  · simp [query_persist]
  · simp [query_persist]
  · intro hc
    simp [query_persist, hc]

/-- Claim C10 witness: the persistence clause at the truthy conversation id 5. -/
theorem claim_C10_witness :
    (query_persist "q".data (some 5) true [] "a".data).2 =
      [ { conversation_id := 5, role := "user".data, content := "q".data }
      , { conversation_id := 5, role := "assistant".data, content := "a".data
        , sources := some (grounded_sources
            (if true && !([] : List Citation).isEmpty then [] else [])) } ] :=
  (claim_C10_no_persistence_without_conversation "q".data true [] "a".data 5).2.2
    (by norm_num)

theorem dictGet_cons {α : Type} (hd : List Char × α) (tl : PyDict α) (k : List Char) :
    dictGet (hd :: tl) k = if hd.1 = k then some hd.2 else dictGet tl k := by
  by_cases h : hd.1 = k <;> simp [dictGet, List.find?_cons, h]

theorem dictGet_nil {α : Type} (k : List Char) : dictGet ([] : PyDict α) k = none := rfl

theorem any_key_iff {α : Type} (d : PyDict α) (k : List Char) :
    d.any (fun kv => kv.1 == k) = true ↔ k ∈ d.map Prod.fst := by
  rw [List.any_eq_true]
  constructor
  · rintro ⟨kv, hmem, hbeq⟩
    exact List.mem_map.mpr ⟨kv, hmem, beq_iff_eq.mp hbeq⟩
  · intro h
    rcases List.mem_map.mp h with ⟨kv, hmem, hfst⟩
    exact ⟨kv, hmem, beq_iff_eq.mpr hfst⟩

theorem dictGet_append {α : Type} (d1 d2 : PyDict α) (k : List Char) :
    dictGet (d1 ++ d2) k = (dictGet d1 k).or (dictGet d2 k) := by
  induction d1 with
  | nil => simp [dictGet_nil]
  | cons hd tl ih =>
    rw [List.cons_append, dictGet_cons, dictGet_cons]
    by_cases hhd : hd.1 = k <;> simp [hhd, ih]

theorem dictGet_map_replace_ne {α : Type} (d : PyDict α) (k : List Char) (v : α)
    (k2 : List Char) (hne : k2 ≠ k) :
    dictGet (d.map fun kv => if kv.1 == k then (k, v) else kv) k2 = dictGet d k2 := by
  induction d with
  | nil => rfl
  | cons hd tl ih =>
    rw [List.map_cons, dictGet_cons, dictGet_cons]
    by_cases hhd : hd.1 = k
    · rw [if_pos (beq_iff_eq.mpr hhd)]
      rw [if_neg (show ¬ ((k, v) : List Char × α).1 = k2 from fun h => hne h.symm)]
      rw [if_neg (show ¬ hd.1 = k2 from fun h => hne (hhd.symm.trans h).symm)]
      exact ih
    · rw [if_neg (fun h => hhd (beq_iff_eq.mp h))]
      by_cases hk2 : hd.1 = k2
      · rw [if_pos hk2, if_pos hk2]
      · rw [if_neg hk2, if_neg hk2]
        exact ih

theorem dictGet_map_replace_self {α : Type} (d : PyDict α) (k : List Char) (v : α)
    (hmem : k ∈ d.map Prod.fst) :
    dictGet (d.map fun kv => if kv.1 == k then (k, v) else kv) k = some v := by
  induction d with
  | nil => simp at hmem
  | cons hd tl ih =>
    rw [List.map_cons, dictGet_cons]
    by_cases hhd : hd.1 = k
    · rw [if_pos (beq_iff_eq.mpr hhd)]
      rw [if_pos rfl]
    · rw [if_neg (fun h => hhd (beq_iff_eq.mp h))]
      rw [if_neg hhd]
      apply ih
      rcases List.mem_map.mp hmem with ⟨kv, hkv, hfst⟩
      rcases List.mem_cons.mp hkv with heq | hkv2
      · exact absurd (heq ▸ hfst) hhd
      · exact List.mem_map.mpr ⟨kv, hkv2, hfst⟩

theorem dictGet_dictSet {α : Type} (d : PyDict α) (k : List Char) (v : α) (k2 : List Char) :
    dictGet (dictSet d k v) k2 = if k2 = k then some v else dictGet d k2 := by
  unfold dictSet
  by_cases hmem : d.any (fun kv => kv.1 == k) = true
  · rw [if_pos hmem]
    by_cases hk2 : k2 = k
    · rw [if_pos hk2, hk2]
      exact dictGet_map_replace_self d k v (any_key_iff d k |>.mp hmem)
    · rw [if_neg hk2]
      exact dictGet_map_replace_ne d k v k2 hk2
  · rw [if_neg hmem, dictGet_append]
    by_cases hk2 : k2 = k
    · rw [if_pos hk2]
      have hnone : dictGet d k2 = none := by
        unfold dictGet
        rw [List.find?_eq_none.mpr]
        · rfl
        · intro kv hkv hbeq
          exact hmem (List.any_eq_true.mpr ⟨kv, hkv, by rw [hk2] at hbeq; exact hbeq⟩)
      rw [hnone]
      rw [dictGet_cons]
      rw [if_pos hk2.symm]
      rfl
    · rw [if_neg hk2, dictGet_cons]
      rw [if_neg (fun h => hk2 h.symm), dictGet_nil]
      cases dictGet d k2 <;> rfl



theorem dictGet_eq_none {α : Type} (d : PyDict α) (k : List Char)
    (h : k ∉ d.map Prod.fst) : dictGet d k = none := by
  unfold dictGet
  rw [List.find?_eq_none.mpr]
  · rfl
  · intro kv hkv hbeq
    exact h (List.mem_map.mpr ⟨kv, hkv, beq_iff_eq.mp hbeq⟩)

theorem keys_dictSet_mem {α : Type} (d : PyDict α) (k : List Char) (v : α)
    (hmem : d.any (fun kv => kv.1 == k) = true) :
    (dictSet d k v).map Prod.fst = d.map Prod.fst := by
  unfold dictSet
  rw [if_pos hmem, List.map_map]
  apply List.map_congr_left
  intro kv _
  by_cases h : kv.1 = k
  · simp only [Function.comp_apply, beq_iff_eq.mpr h, if_true]
    exact h.symm
  · simp only [Function.comp_apply]
    rw [if_neg (fun hb => h (beq_iff_eq.mp hb))]

theorem nodup_keys_dictSet {α : Type} (d : PyDict α) (k : List Char) (v : α)
    (h : (d.map Prod.fst).Nodup) : ((dictSet d k v).map Prod.fst).Nodup := by
  by_cases hmem : d.any (fun kv => kv.1 == k) = true
  · rw [keys_dictSet_mem d k v hmem]
    exact h
  · unfold dictSet
    rw [if_neg hmem, List.map_append]
    apply List.Nodup.append h (List.nodup_singleton k)
    intro a ha hb
    have hak : a = k := by simpa using hb
    subst hak
    exact hmem ((any_key_iff d a).mpr ha)

theorem dictGet_update {α : Type} (heavy : PyDict α) (k : List Char) :
    (heavy.map Prod.fst).Nodup → ∀ light : PyDict α,
    dictGet (heavy.foldl (fun acc kv => dictSet acc kv.1 kv.2) light) k =
      (dictGet heavy k).or (dictGet light k) := by
  induction heavy with
  | nil =>
    intro _ light
    simp [dictGet_nil]
  | cons hd tl ih =>
    intro hnd light
    rw [List.map_cons] at hnd
    rcases List.nodup_cons.mp hnd with ⟨hnotin, hnd2⟩
    rw [List.foldl_cons, ih hnd2, dictGet_cons, dictGet_dictSet]
    by_cases hk : hd.1 = k
    · rw [if_pos hk, if_pos hk.symm]
      rw [dictGet_eq_none tl k (hk ▸ hnotin)]
      rfl
    · rw [if_neg (fun h => hk h.symm), if_neg hk]

theorem splitFold_get {α : Type} (pyStr : α → List Char) (m : PyDict α)
    (k : List Char) :
    (m.map Prod.fst).Nodup → ∀ acc : PyDict α × PyDict α,
      dictGet ((m.foldl (split_step pyStr) acc).1) k =
        (match dictGet m k with
         | some v => if sendsToLight pyStr k v then some v else dictGet acc.1 k
         | none => dictGet acc.1 k)
      ∧ dictGet ((m.foldl (split_step pyStr) acc).2) k =
        (match dictGet m k with
         | some v => if sendsToLight pyStr k v then dictGet acc.2 k else some v
         | none => dictGet acc.2 k) := by
  induction m with
  | nil =>
    intro _ acc
    simp [dictGet_nil]
  | cons hd tl ih =>
    intro hnd acc
    rw [List.map_cons] at hnd
    rcases List.nodup_cons.mp hnd with ⟨hnotin, hnd2⟩
    rw [List.foldl_cons, dictGet_cons]
    obtain ⟨ih1, ih2⟩ := ih hnd2 (split_step pyStr acc hd)
    rw [ih1, ih2]
    by_cases hk : hd.1 = k
    · rw [if_pos hk]
      rw [dictGet_eq_none tl k (hk ▸ hnotin)]
      unfold split_step sendsToLight
      subst hk
      by_cases hL : hd.1 ∈ LIGHT_METADATA_FIELDS
      · simp [hL, dictGet_dictSet]
      · by_cases hH : hd.1 ∈ HEAVY_METADATA_FIELDS
        · simp [hL, hH, dictGet_dictSet]
        · by_cases hlen : (pyStr hd.2).length > 100
          · simp [hL, hH, hlen, dictGet_dictSet]
          · simp [hL, hH, hlen, dictGet_dictSet]
    · rw [if_neg hk]
      have hacc1 : dictGet (split_step pyStr acc hd).1 k = dictGet acc.1 k := by
        unfold split_step
        by_cases hL : hd.1 ∈ LIGHT_METADATA_FIELDS
        · simp [hL, dictGet_dictSet]
          intro h
          exact absurd h.symm hk
        · by_cases hH : hd.1 ∈ HEAVY_METADATA_FIELDS
          · simp [hL, hH]
          · by_cases hlen : (pyStr hd.2).length > 100
            · simp [hL, hH, hlen]
            · simp [hL, hH, hlen, dictGet_dictSet]
              intro h
              exact absurd h.symm hk
      have hacc2 : dictGet (split_step pyStr acc hd).2 k = dictGet acc.2 k := by
        unfold split_step
        by_cases hL : hd.1 ∈ LIGHT_METADATA_FIELDS
        · simp [hL]
        · by_cases hH : hd.1 ∈ HEAVY_METADATA_FIELDS
          · simp [hL, hH, dictGet_dictSet]
            intro h
            exact absurd h.symm hk
          · by_cases hlen : (pyStr hd.2).length > 100
            · simp [hL, hH, hlen, dictGet_dictSet]
              intro h
              exact absurd h.symm hk
            · simp [hL, hH, hlen]
      rw [hacc1, hacc2]
      exact ⟨rfl, rfl⟩



theorem splitFold_nodup {α : Type} (pyStr : α → List Char) (m : PyDict α) :
    ∀ acc : PyDict α × PyDict α,
      (acc.1.map Prod.fst).Nodup → (acc.2.map Prod.fst).Nodup →
      (((m.foldl (split_step pyStr) acc).1).map Prod.fst).Nodup
      ∧ (((m.foldl (split_step pyStr) acc).2).map Prod.fst).Nodup := by
  induction m with
  | nil =>
    intro acc h1 h2
    exact ⟨h1, h2⟩
  | cons hd tl ih =>
    intro acc h1 h2
    rw [List.foldl_cons]
    apply ih
    · unfold split_step
      by_cases hL : hd.1 ∈ LIGHT_METADATA_FIELDS
      · simpa [hL] using nodup_keys_dictSet acc.1 hd.1 hd.2 h1
      · by_cases hH : hd.1 ∈ HEAVY_METADATA_FIELDS
        · simpa [hL, hH] using h1
        · by_cases hlen : (pyStr hd.2).length > 100
          · simpa [hL, hH, hlen] using h1
          · simpa [hL, hH, hlen] using nodup_keys_dictSet acc.1 hd.1 hd.2 h1
    · unfold split_step
      by_cases hL : hd.1 ∈ LIGHT_METADATA_FIELDS
      · simpa [hL] using h2
      · by_cases hH : hd.1 ∈ HEAVY_METADATA_FIELDS
        · simpa [hL, hH] using nodup_keys_dictSet acc.2 hd.1 hd.2 h2
        · by_cases hlen : (pyStr hd.2).length > 100
          · simpa [hL, hH, hlen] using nodup_keys_dictSet acc.2 hd.1 hd.2 h2
          · simpa [hL, hH, hlen] using h2

theorem dictGet_of_mem {α : Type} (m : PyDict α) (k : List Char) (v : α)
    (hnd : (m.map Prod.fst).Nodup) (hmem : (k, v) ∈ m) : dictGet m k = some v := by
  induction m with
  | nil => simp at hmem
  | cons hd tl ih =>
    rw [List.map_cons] at hnd
    rcases List.nodup_cons.mp hnd with ⟨hnotin, hnd2⟩
    rw [dictGet_cons]
    rcases List.mem_cons.mp hmem with heq | htl
    · rw [← heq]
      simp
    · have hne : hd.1 ≠ k := by
        intro h
        apply hnotin
        rw [h]
        exact List.mem_map.mpr ⟨(k, v), htl, rfl⟩
      rw [if_neg hne]
      exact ih hnd2 htl



theorem splitFold_or {α : Type} (pyStr : α → List Char) (m : PyDict α)
    (hnd : (m.map Prod.fst).Nodup) (k : List Char) :
    (dictGet ((m.foldl (split_step pyStr) ([], [])).2) k).or
      (dictGet ((m.foldl (split_step pyStr) ([], [])).1) k) = dictGet m k := by
  obtain ⟨hg1, hg2⟩ := splitFold_get pyStr m k hnd ([], [])
  cases hmk : dictGet m k with
  | none =>
    simp only [hmk] at hg1 hg2
    rw [hg1, hg2]
    rfl
  | some v =>
    simp only [hmk] at hg1 hg2
    by_cases hs : sendsToLight pyStr k v = true
    · simp only [hs, if_true] at hg1 hg2
      rw [hg1, hg2]
      rfl
    · simp only [hs, if_false] at hg1 hg2
      rw [hg1, hg2]
      rfl

/-- Claim C7 (confirmed): for every metadata mapping (unique keys),
`merge_metadata` applied to the two halves of `split_metadata` reproduces the
original mapping (pointwise dictionary equality), and every key outside both
fixed field sets goes to the light half exactly when its string form has at
most 100 characters and to the heavy half when longer. -/
theorem claim_C7_split_merge {α : Type} (pyStr : α → List Char) (m : PyDict α)
    (hnd : (m.map Prod.fst).Nodup) :
    (∀ k, dictGet (merge_metadata (split_metadata pyStr m).1
        (some (split_metadata pyStr m).2)) k = dictGet m k)
    ∧ (∀ k v, (k, v) ∈ m → k ∉ LIGHT_METADATA_FIELDS → k ∉ HEAVY_METADATA_FIELDS →
        ((pyStr v).length ≤ 100 →
          dictGet (split_metadata pyStr m).1 k = some v
          ∧ dictGet (split_metadata pyStr m).2 k = none)
        ∧ ((pyStr v).length > 100 →
          dictGet (split_metadata pyStr m).1 k = none
          ∧ dictGet (split_metadata pyStr m).2 k = some v)) := by
  have hbase : (([] : PyDict α).map Prod.fst).Nodup := List.nodup_nil
  obtain ⟨hn1, hn2⟩ := splitFold_nodup pyStr m ([], []) hbase hbase
  constructor
  · intro k
    cases hdoc : dictGet m "document_id".data with
    | none =>
      have hsm : split_metadata pyStr m = m.foldl (split_step pyStr) ([], []) := by
        unfold split_metadata
        rw [hdoc]
      rw [hsm]
      show dictGet ((m.foldl (split_step pyStr) ([], [])).2.foldl
        (fun acc kv => dictSet acc kv.1 kv.2) (m.foldl (split_step pyStr) ([], [])).1) k
        = dictGet m k
      rw [dictGet_update _ k hn2]
      exact splitFold_or pyStr m hnd k
    | some dv =>
      have hsm : split_metadata pyStr m =
          (dictSet (m.foldl (split_step pyStr) ([], [])).1 "document_id".data dv,
           dictSet (m.foldl (split_step pyStr) ([], [])).2 "document_id".data dv) := by
        unfold split_metadata
        rw [hdoc]
      rw [hsm]
      show dictGet ((dictSet (m.foldl (split_step pyStr) ([], [])).2 "document_id".data dv).foldl
        (fun acc kv => dictSet acc kv.1 kv.2)
        (dictSet (m.foldl (split_step pyStr) ([], [])).1 "document_id".data dv)) k
        = dictGet m k
      rw [dictGet_update _ k (nodup_keys_dictSet _ _ _ hn2)]
      rw [dictGet_dictSet, dictGet_dictSet]
      by_cases hkd : k = "document_id".data
      · rw [if_pos hkd, if_pos hkd, hkd, hdoc]
        rfl
      · rw [if_neg hkd, if_neg hkd]
        exact splitFold_or pyStr m hnd k
  · intro k v hmem hL hH
    have hkd : k ≠ "document_id".data := by
      intro h
      exact hL (h ▸ (by decide : ("document_id".data ∈ LIGHT_METADATA_FIELDS)))
    have hmk : dictGet m k = some v := dictGet_of_mem m k v hnd hmem
    obtain ⟨hg1, hg2⟩ := splitFold_get pyStr m k hnd ([], [])
    simp only [hmk] at hg1 hg2
    have hs1 : dictGet (split_metadata pyStr m).1 k
        = dictGet (m.foldl (split_step pyStr) ([], [])).1 k := by
      unfold split_metadata
      cases hdoc : dictGet m "document_id".data with
      | none => rfl
      | some dv =>
        show dictGet (dictSet (m.foldl (split_step pyStr) ([], [])).1
          "document_id".data dv) k = _
        rw [dictGet_dictSet, if_neg hkd]
    have hs2 : dictGet (split_metadata pyStr m).2 k
        = dictGet (m.foldl (split_step pyStr) ([], [])).2 k := by
      unfold split_metadata
      cases hdoc : dictGet m "document_id".data with
      | none => rfl
      | some dv =>
        show dictGet (dictSet (m.foldl (split_step pyStr) ([], [])).2
          "document_id".data dv) k = _
        rw [dictGet_dictSet, if_neg hkd]
    constructor
    · intro hshort
      have hsend : sendsToLight pyStr k v = true := by
        unfold sendsToLight
        rw [if_neg hL, if_neg hH, if_neg (by omega)]
      simp only [hsend, if_true] at hg1 hg2
      exact ⟨hs1.trans hg1, hs2.trans hg2⟩
    · intro hlong
      have hsend : ¬ sendsToLight pyStr k v = true := by
        unfold sendsToLight
        rw [if_neg hL, if_neg hH, if_pos hlong]
        simp
      simp only [hsend, if_false] at hg1 hg2
      exact ⟨hs1.trans hg1, hs2.trans hg2⟩




/-- Claim C7 witness: the theorem applied to `sample_metadata`. -/
theorem claim_C7_witness :
    (dictGet (merge_metadata (split_metadata id sample_metadata).1
        (some (split_metadata id sample_metadata).2)) "custom".data
      = dictGet sample_metadata "custom".data)
    ∧ dictGet (split_metadata id sample_metadata).1 "custom".data = some "short".data
    ∧ dictGet (split_metadata id sample_metadata).2 "custom".data = none
    ∧ dictGet (split_metadata id sample_metadata).1 "blob".data = none
    ∧ dictGet (split_metadata id sample_metadata).2 "blob".data
        = some (List.replicate 101 'z') := by
  have h := claim_C7_split_merge id sample_metadata (by decide)
  refine ⟨h.1 "custom".data, ?_, ?_, ?_, ?_⟩
  · exact ((h.2 "custom".data "short".data (by decide) (by decide) (by decide)).1 (by decide)).1
  · exact ((h.2 "custom".data "short".data (by decide) (by decide) (by decide)).1 (by decide)).2
  · exact ((h.2 "blob".data (List.replicate 101 'z') (by decide) (by decide) (by decide)).2 (by decide)).1
  · exact ((h.2 "blob".data (List.replicate 101 'z') (by decide) (by decide) (by decide)).2 (by decide)).2

end DigitalTwin
